import Mathlib

/-!
Verification development for the form-submission API handlers of the
thetechbros-site repository.  The source files embedded here are:

* src/src/pages/api/merch/waitlist.ts            (merch waitlist endpoint)
* src/src/pages/api/newsletter/debug.ts          (minimal newsletter endpoint,
  second document in the file; the first document is a diagnostic GET handler)
* src/unnamed/part_000                           (name-qualified newsletter endpoint)
* src/src/pages/api/community-apply.ts           (community application endpoint;
  the second, full variant with Slack and Resend side channels is embedded)

Modelling conventions:

* JSON body fields are Option String (absent / present); the TypeScript
  typeof-string guards collapse non-string values into the "missing" case.
* Environment configuration values are Option String; the JS truthiness test
  on a configuration value (false exactly for null/undefined and the empty
  string) is the function optTruthy below.
* The fetch calls to the record store are replaced by an oracle argument
  (StoreOutcome / NLStoreOutcome) describing what the upstream returned;
  side-channel calls (Slack webhook, Resend email) get SideOutcome oracles.
  The handler result records which outbound calls were attempted (Effects)
  together with the HTTP response, so that claims about "no upstream write"
  and "no notification attempted" are statable.
* Times are Nat milliseconds (Date.now()).
* JavaScript string primitives (trim, includes, toLowerCase, substring) are
  implemented over the character list of the string; the whitespace class is
  the ASCII part of the regex class backslash-s.
-/

/-- ASCII part of the JS whitespace class used by String.prototype.trim and
the regex class backslash-s: space, tab, newline, carriage return, vertical
tab, form feed. -/
def isWsChar (c : Char) : Bool :=
  c = ' ' || c = '\t' || c = '\n' || c = '\r' || c = Char.ofNat 11 || c = Char.ofNat 12

/-- JS String.prototype.trim: drop whitespace from both ends. -/
def jsTrim (s : String) : String :=
  String.mk (((s.toList.dropWhile isWsChar).reverse.dropWhile isWsChar).reverse)

/-- needle is a leading segment of hay. -/
def chPrefixB : List Char → List Char → Bool
  | [], _ => true
  | _ :: _, [] => false
  | a :: as, b :: bs => a = b && chPrefixB as bs

/-- needle occurs contiguously inside hay. -/
def chInfixB (needle : List Char) : List Char → Bool
  | [] => needle.isEmpty
  | c :: rest => chPrefixB needle (c :: rest) || chInfixB needle rest

/-- JS String.prototype.includes. -/
def jsIncludes (hay needle : String) : Bool :=
  chInfixB needle.toList hay.toList

/-- JS String.prototype.toLowerCase (ASCII). -/
def jsToLower (s : String) : String :=
  String.mk (s.toList.map Char.toLower)

/-- JS String.prototype.substring(0, n). -/
def jsTake (s : String) (n : Nat) : String :=
  String.mk (s.toList.take n)

/-- JS truthiness of an optional string: false for absent and for "". -/
def optTruthy : Option String → Bool
  | none => false
  | some s => !(s == "")

/-- A character allowed in the atoms of the email regex: anything that is
neither whitespace nor the at sign (the regex class excluding backslash-s
and the at sign). -/
def emailAtomChar (c : Char) : Bool :=
  !(isWsChar c) && !(c == '@')

/-- The email shape test shared by the newsletter and merch endpoints,
the anchored regex: one or more atom characters, an at sign, then a domain
of atom characters containing a dot that is neither its first nor its last
character.  Because atom characters exclude the at sign, a matching string
contains exactly one at sign, so splitting on it yields exactly the local
part and the domain; the two domain atoms around the literal dot are
non-empty exactly when some dot of the domain is interior. -/
def isValidEmail (s : String) : Bool :=
  match s.toList.splitOn '@' with
  | [l, d] =>
      !(l.isEmpty) && l.all emailAtomChar && d.all emailAtomChar &&
        (d.tail.dropLast.contains '.')
  | _ => false

/-- One entry of the in-memory rate-limit map: submissions seen in the
current window and the time the window ends. -/
structure RLRecord where
  count : Nat
  resetAt : Nat
deriving Repr, DecidableEq

/-- The rate-limit map, modelled as an association list keyed by client
address (JS Map with string keys). -/
abbrev RLState := List (String × RLRecord)

/-- Map.get. -/
def rlGet : RLState → String → Option RLRecord
  | [], _ => none
  | (k, v) :: rest, ip => if k = ip then some v else rlGet rest ip

/-- Map.set: replace the first entry with the key, or append. -/
def rlSet : RLState → String → RLRecord → RLState
  | [], ip, v => [(ip, v)]
  | (k, w) :: rest, ip, v =>
      if k = ip then (ip, v) :: rest else (k, w) :: rlSet rest ip v

def RATE_LIMIT_REQUESTS : Nat := 5

def RATE_LIMIT_WINDOW_MS : Nat := 60 * 1000

/-- checkRateLimit from the newsletter endpoints (both variants contain the
identical function).  Returns the boolean the function returns together with
the map after the call (the source mutates the map in place). -/
def checkRateLimit (s : RLState) (ip : String) (now : Nat) : Bool × RLState :=
  match rlGet s ip with
  | none => (true, rlSet s ip ⟨1, now + RATE_LIMIT_WINDOW_MS⟩)
  | some record =>
      if record.resetAt < now then
        (true, rlSet s ip ⟨1, now + RATE_LIMIT_WINDOW_MS⟩)
      else if RATE_LIMIT_REQUESTS ≤ record.count then
        (false, s)
      else
        (true, rlSet s ip ⟨record.count + 1, record.resetAt⟩)

/-- The booleans returned by a sequence of checkRateLimit calls at one key. -/
def rlRun (s : RLState) (ip : String) : List Nat → List Bool
  | [] => []
  | t :: ts =>
      let r := checkRateLimit s ip t
      r.1 :: rlRun r.2 ip ts

/-- The map after a sequence of checkRateLimit calls at arbitrary keys. -/
def rlRunState (s : RLState) : List (String × Nat) → RLState
  | [] => s
  | c :: cs => rlRunState (checkRateLimit s c.1 c.2).2 cs

/-- Invariant on the rate-limit map: every stored count lies in 1..5. -/
def RLInv (s : RLState) : Prop :=
  ∀ p ∈ s, 1 ≤ p.2.count ∧ p.2.count ≤ 5

/-- JSON response bodies produced by the handlers. -/
inductive JsonBody where
  | okTrue
  | successTrue
  | errOnly (error : String)
  | successFalse (error : String)
  | configError (error : String) (missing : List String)
  | successFalseDebug (error : String) (upstreamStatus : Nat)
      (upstreamMessage : Option String)
deriving Repr, DecidableEq

structure HttpResponse where
  status : Nat
  body : JsonBody
deriving Repr, DecidableEq

/-- Which outbound calls the handler attempted. -/
structure Effects where
  storeWrite : Bool
  slack : Bool
  confirmEmail : Bool
deriving Repr, DecidableEq

def noEffects : Effects := ⟨false, false, false⟩

/-- Oracle for the record-store fetch of the merch and community endpoints:
the call threw, or returned a response with the given ok flag and status. -/
inductive StoreOutcome where
  | threw
  | resp (ok : Bool) (status : Nat)
deriving Repr, DecidableEq

/-- Oracle for the EmailOctopus fetch of the newsletter endpoints; the
response body is abstracted to its optional error message
(responseData.error.message).  threw also covers a response whose JSON
parsing threw, since both are caught by the same try block. -/
inductive NLStoreOutcome where
  | threw
  | resp (ok : Bool) (status : Nat) (errorMessage : Option String)
deriving Repr, DecidableEq

/-- Oracle for a side-channel call (Slack webhook, Resend email). -/
inductive SideOutcome where
  | threw
  | resp (ok : Bool)
deriving Repr, DecidableEq

/-- A required-string check of the form: absent, or not a string, or empty
after trimming (the pattern used for name, sizePreference, firstName,
lastName, fullName). -/
def reqStrMissing : Option String → Bool
  | none => true
  | some s => s == "" || jsTrim s == ""

/-- The email presence check of the form: absent, or not a string (an empty
string is falsy, hence also "missing"). -/
def emailMissing : Option String → Bool
  | none => true
  | some s => s == ""

/-- The honeypot test: the company field is truthy and non-empty after
trimming. -/
def hpTriggered : Option String → Bool
  | none => false
  | some c => !(c == "") && !(jsTrim c == "")

/-- A value of an outbound record field. -/
inductive FieldVal where
  | str (s : String)
  | strList (l : List String)
  | bool (b : Bool)
deriving Repr, DecidableEq

/-- Request body of the merch waitlist endpoint. -/
structure MerchBody where
  name : Option String
  email : Option String
  sizePreference : Option String
  interestedIn : Option String
  company : Option String
deriving Repr, DecidableEq

/-- Environment configuration read by the merch waitlist endpoint. -/
structure MerchConfig where
  airtablePat : Option String
  airtableBaseId : Option String
  merchTableId : Option String
  slackWebhookUrl : Option String
deriving Repr, DecidableEq

/-- The Airtable record built by the merch endpoint: Name, Email,
Size Preference, Source, and Interested In when the raw field is truthy and
its trim is truthy. -/
def merchFields (body : MerchBody) : List (String × FieldVal) :=
  [("Name", .str (jsTrim (body.name.getD ""))),
   ("Email", .str (jsTrim (body.email.getD ""))),
   ("Size Preference", .str (jsTrim (body.sizePreference.getD ""))),
   ("Source", .str "merch_page")] ++
  (match body.interestedIn with
   | none => []
   | some s =>
       if s == "" then []
       else if jsTrim s == "" then []
       else [("Interested In", .str (jsTrim s))])

structure MerchResult where
  resp : HttpResponse
  effects : Effects
  storeRecord : Option (List (String × FieldVal))
deriving Repr, DecidableEq

/-- POST of src/src/pages/api/merch/waitlist.ts.  body? is none when the
JSON body failed to parse.  The slack oracle is inspected only inside a
try/catch whose failure paths merely log, so it does not influence the
result. -/
def merchPost (cfg : MerchConfig) (body? : Option MerchBody)
    (store : StoreOutcome) (slack : SideOutcome) : MerchResult :=
  match body? with
  | none => ⟨⟨400, .successFalse "Invalid JSON"⟩, noEffects, none⟩
  | some body =>
      if hpTriggered body.company then
        ⟨⟨200, .successTrue⟩, noEffects, none⟩
      else if reqStrMissing body.name then
        ⟨⟨400, .successFalse "Name is required"⟩, noEffects, none⟩
      else if emailMissing body.email then
        ⟨⟨400, .successFalse "Email is required"⟩, noEffects, none⟩
      else if !(isValidEmail (jsTrim (body.email.getD ""))) then
        ⟨⟨400, .successFalse "Invalid email format"⟩, noEffects, none⟩
      else if reqStrMissing body.sizePreference then
        ⟨⟨400, .successFalse "Size preference is required"⟩, noEffects, none⟩
      else if !(optTruthy cfg.airtablePat) || !(optTruthy cfg.airtableBaseId)
          || !(optTruthy cfg.merchTableId) then
        ⟨⟨500, .successFalse "Server error"⟩, noEffects, none⟩
      else
        match store with
        | .threw =>
            ⟨⟨500, .successFalse "Server error"⟩, ⟨true, false, false⟩,
              some (merchFields body)⟩
        | .resp ok _ =>
            if !ok then
              ⟨⟨502, .successFalse "Server error"⟩, ⟨true, false, false⟩,
                some (merchFields body)⟩
            else
              ⟨⟨200, .successTrue⟩,
                ⟨true, optTruthy cfg.slackWebhookUrl, false⟩,
                some (merchFields body)⟩

/-- Request body of the minimal newsletter endpoint. -/
structure NLBody where
  email : Option String
  company : Option String
deriving Repr, DecidableEq

/-- Environment configuration read by both newsletter endpoints. -/
structure NLConfig where
  apiKey : Option String
  listId : Option String
deriving Repr, DecidableEq

structure NLResult where
  resp : HttpResponse
  effects : Effects
  state : RLState
deriving Repr, DecidableEq

/-- The duplicate-subscription test of the newsletter endpoints: lower-case
the upstream error message (absent message becomes the empty string) and
look for one of three phrases. -/
def nlDupMessage (errorMessage : Option String) : Bool :=
  let msg := match errorMessage with
    | none => ""
    | some m => jsToLower m
  jsIncludes msg "already subscribed" || jsIncludes msg "already pending" ||
    jsIncludes msg "is already on the list"

/-- POST of the minimal newsletter endpoint (second document of
src/src/pages/api/newsletter/debug.ts).  prod is import.meta.env.PROD; ip is
the client identifier already derived from the forwarded headers; st is the
rate-limit map before the request. -/
def newsletterMinimalPost (prod : Bool) (cfg : NLConfig) (body? : Option NLBody)
    (ip : String) (now : Nat) (st : RLState) (store : NLStoreOutcome) : NLResult :=
  match body? with
  | none => ⟨⟨400, .successFalse "Invalid JSON"⟩, noEffects, st⟩
  | some body =>
      if hpTriggered body.company then
        ⟨⟨200, .successTrue⟩, noEffects, st⟩
      else if emailMissing body.email then
        ⟨⟨400, .successFalse "Email is required"⟩, noEffects, st⟩
      else if !(isValidEmail (jsTrim (body.email.getD ""))) then
        ⟨⟨400, .successFalse "Invalid email format"⟩, noEffects, st⟩
      else
        let rl := checkRateLimit st ip now
        if !rl.1 then
          ⟨⟨429, .successFalse "Too many requests. Please try again later."⟩,
            noEffects, rl.2⟩
        else if !(optTruthy cfg.apiKey) || !(optTruthy cfg.listId) then
          ⟨⟨500, .successFalse "Server configuration error"⟩, noEffects, rl.2⟩
        else
          match store with
          | .threw =>
              ⟨⟨500, .successFalse "Internal server error"⟩,
                ⟨true, false, false⟩, rl.2⟩
          | .resp ok status errorMessage =>
              if ok then
                ⟨⟨200, .successTrue⟩, ⟨true, false, false⟩, rl.2⟩
              else if nlDupMessage errorMessage then
                ⟨⟨200, .successTrue⟩, ⟨true, false, false⟩, rl.2⟩
              else if prod then
                ⟨⟨500, .successFalse "Failed to subscribe. Please try again later."⟩,
                  ⟨true, false, false⟩, rl.2⟩
              else
                ⟨⟨500, .successFalseDebug
                    "EmailOctopus API request failed. Check upstreamStatus and upstreamBody for details."
                    status errorMessage⟩,
                  ⟨true, false, false⟩, rl.2⟩

/-- Request body of the name-qualified newsletter endpoint. -/
structure NLNamedBody where
  email : Option String
  firstName : Option String
  lastName : Option String
  company : Option String
deriving Repr, DecidableEq

/-- POST of src/unnamed/part_000, the newsletter variant requiring first and
last name.  Upstream failures other than duplicate subscriptions, network
errors and missing configuration all answer 500 with the same message. -/
def newsletterNamedPost (cfg : NLConfig) (body? : Option NLNamedBody)
    (ip : String) (now : Nat) (st : RLState) (store : NLStoreOutcome) : NLResult :=
  match body? with
  | none => ⟨⟨400, .successFalse "Invalid JSON"⟩, noEffects, st⟩
  | some body =>
      if hpTriggered body.company then
        ⟨⟨200, .successTrue⟩, noEffects, st⟩
      else if emailMissing body.email then
        ⟨⟨400, .successFalse "Email is required"⟩, noEffects, st⟩
      else if !(isValidEmail (jsTrim (body.email.getD ""))) then
        ⟨⟨400, .successFalse "Invalid email format"⟩, noEffects, st⟩
      else if reqStrMissing body.firstName then
        ⟨⟨400, .successFalse "First name is required"⟩, noEffects, st⟩
      else if reqStrMissing body.lastName then
        ⟨⟨400, .successFalse "Last name is required"⟩, noEffects, st⟩
      else
        let rl := checkRateLimit st ip now
        if !rl.1 then
          ⟨⟨429, .successFalse "Too many requests. Please try again later."⟩,
            noEffects, rl.2⟩
        else if !(optTruthy cfg.apiKey) || !(optTruthy cfg.listId) then
          ⟨⟨500, .successFalse "Server configuration error"⟩, noEffects, rl.2⟩
        else
          match store with
          | .threw =>
              ⟨⟨500, .successFalse "Server configuration error"⟩,
                ⟨true, false, false⟩, rl.2⟩
          | .resp ok _ errorMessage =>
              if ok then
                ⟨⟨200, .successTrue⟩, ⟨true, false, false⟩, rl.2⟩
              else if nlDupMessage errorMessage then
                ⟨⟨200, .successTrue⟩, ⟨true, false, false⟩, rl.2⟩
              else
                ⟨⟨500, .successFalse "Server configuration error"⟩,
                  ⟨true, false, false⟩, rl.2⟩

/-- Request body of the community application endpoint; fields may be a
single string or an array of strings. -/
structure CABody where
  fullName : Option String
  email : Option String
  linkedinUrl : Option String
  personalWebsite : Option String
  phoneNumber : Option String
  whyTTB : Option String
  location : Option String
  fields : Option (String ⊕ List String)
  mostAdvancedDegree : Option String
  addToMailingList : Option Bool
deriving Repr, DecidableEq

/-- Environment configuration read by the community application endpoint. -/
structure CAConfig where
  airtablePat : Option String
  airtableBaseId : Option String
  airtableTableId : Option String
  airtableTableName : Option String
  slackWebhookUrl : Option String
  resendApiKey : Option String
  fromEmail : Option String
  replyToEmail : Option String
deriving Repr, DecidableEq

/-- The missing-variables list built by the community endpoint. -/
def caMissingVars (cfg : CAConfig) : List String :=
  (if !(optTruthy cfg.airtablePat) then ["AIRTABLE_PAT"] else []) ++
  (if !(optTruthy cfg.airtableBaseId) then ["AIRTABLE_BASE_ID"] else []) ++
  (if !(optTruthy cfg.airtableTableId) && !(optTruthy cfg.airtableTableName) then
    ["AIRTABLE_TABLE_ID or AIRTABLE_TABLE_NAME"] else [])

/-- The email check of the community endpoint: present, a string, and
containing an at sign (no dot requirement). -/
def caEmailInvalid : Option String → Bool
  | none => true
  | some s => s == "" || !(jsIncludes s "@")

/-- An optional string field of the outbound community record, included
when the raw value is truthy, trimmed. -/
def caOptStr (label : String) : Option String → List (String × FieldVal)
  | none => []
  | some s => if s == "" then [] else [(label, .str (jsTrim s))]

/-- The sanitized Airtable record built by the community endpoint. -/
def caSanitizedFields (body : CABody) : List (String × FieldVal) :=
  [("Full Name", .str (jsTrim (body.fullName.getD ""))),
   ("Email", .str (jsTrim (body.email.getD "")))] ++
  caOptStr "LinkedIn URL" body.linkedinUrl ++
  caOptStr "Personal Website" body.personalWebsite ++
  caOptStr "Phone Number" body.phoneNumber ++
  caOptStr "Location" body.location ++
  caOptStr "Most Advanced Degree" body.mostAdvancedDegree ++
  (match body.whyTTB with
   | none => []
   | some w => if w == "" then [] else [("Why TTB", .str (jsTake (jsTrim w) 5000))]) ++
  (match body.fields with
   | none => []
   | some (.inl s) =>
       [("Field(s)", .strList (([s].map jsTrim).filter (fun f => !(f == ""))))]
   | some (.inr l) =>
       [("Field(s)", .strList ((l.map jsTrim).filter (fun f => !(f == ""))))]) ++
  [("Add to Mailing List", .bool (body.addToMailingList == some true))]

structure CAResult where
  resp : HttpResponse
  effects : Effects
  storeRecord : Option (List (String × FieldVal))
deriving Repr, DecidableEq

/-- POST of src/src/pages/api/community-apply.ts (full variant with Slack
and Resend side channels).  originHeader is the Origin header (none when
absent); selfOrigin is the origin of the request URL, with URL-origin
normalization abstracted to string comparison.  The slack and emailSend
oracles are inspected only inside try/catch blocks whose failure paths
merely log, so they do not influence the result. -/
def communityApplyPost (originHeader : Option String) (selfOrigin : String)
    (cfg : CAConfig) (body? : Option CABody)
    (store : StoreOutcome) (slack : SideOutcome) (emailSend : SideOutcome) :
    CAResult :=
  if optTruthy originHeader && !((originHeader.getD "") == selfOrigin) then
    ⟨⟨403, .errOnly "Forbidden"⟩, noEffects, none⟩
  else if !((caMissingVars cfg).isEmpty) then
    ⟨⟨500, .configError "Server configuration error" (caMissingVars cfg)⟩,
      noEffects, none⟩
  else
    match body? with
    | none => ⟨⟨400, .errOnly "Invalid JSON"⟩, noEffects, none⟩
    | some body =>
        if reqStrMissing body.fullName then
          ⟨⟨400, .errOnly "fullName is required"⟩, noEffects, none⟩
        else if caEmailInvalid body.email then
          ⟨⟨400, .errOnly "Valid email is required"⟩, noEffects, none⟩
        else
          match store with
          | .threw =>
              ⟨⟨500, .errOnly "Internal server error"⟩, ⟨true, false, false⟩,
                some (caSanitizedFields body)⟩
          | .resp ok _ =>
              if !ok then
                ⟨⟨502, .errOnly "Failed to submit application"⟩,
                  ⟨true, false, false⟩, some (caSanitizedFields body)⟩
              else
                ⟨⟨200, .okTrue⟩,
                  ⟨true, optTruthy cfg.slackWebhookUrl,
                    optTruthy cfg.resendApiKey && optTruthy cfg.fromEmail &&
                      optTruthy body.email⟩,
                  some (caSanitizedFields body)⟩

lemma rlGet_rlSet_same (s : RLState) (ip : String) (v : RLRecord) :
    rlGet (rlSet s ip v) ip = some v := by
  induction s with
  | nil => simp [rlSet, rlGet]
  | cons hd tl ih =>
      obtain ⟨k, w⟩ := hd
      by_cases hk : k = ip
      · simp [rlSet, hk, rlGet]
      · simp [rlSet, hk, rlGet, ih]

lemma mem_rlSet {p : String × RLRecord} {s : RLState} {ip : String}
    {v : RLRecord} (h : p ∈ rlSet s ip v) : p = (ip, v) ∨ p ∈ s := by
  induction s with
  | nil => simpa [rlSet] using h
  | cons hd tl ih =>
      obtain ⟨k, w⟩ := hd
      by_cases hk : k = ip
      · simp [rlSet, hk] at h
        rcases h with h | h
        · exact Or.inl (by simp [h])
        · exact Or.inr (List.mem_cons_of_mem _ h)
      · simp [rlSet, hk] at h
        rcases h with h | h
        · exact Or.inr (by simp [h])
        · rcases ih h with h' | h'
          · exact Or.inl h'
          · exact Or.inr (List.mem_cons_of_mem _ h')

lemma RLInv_checkRateLimit {s : RLState} (ip : String) (now : Nat)
    (hs : RLInv s) : RLInv (checkRateLimit s ip now).2 := by
  cases hget : rlGet s ip with
  | none =>
      have hstep : (checkRateLimit s ip now).2
          = rlSet s ip ⟨1, now + RATE_LIMIT_WINDOW_MS⟩ := by
        simp [checkRateLimit, hget]
      rw [hstep]
      intro p hp
      rcases mem_rlSet hp with h | h
      · subst h
        refine ⟨?_, ?_⟩
        · show 1 ≤ 1
          exact Nat.le_refl 1
        · show 1 ≤ 5
          omega
      · exact hs p h
  | some record =>
      by_cases h1 : record.resetAt < now
      · have hstep : (checkRateLimit s ip now).2
            = rlSet s ip ⟨1, now + RATE_LIMIT_WINDOW_MS⟩ := by
          simp [checkRateLimit, hget, h1]
        rw [hstep]
        intro p hp
        rcases mem_rlSet hp with h | h
        · subst h
          refine ⟨?_, ?_⟩
          · show 1 ≤ 1
            exact Nat.le_refl 1
          · show 1 ≤ 5
            omega
        · exact hs p h
      · by_cases h2 : RATE_LIMIT_REQUESTS ≤ record.count
        · have hstep : (checkRateLimit s ip now).2 = s := by
            simp [checkRateLimit, hget, h1, h2]
          rw [hstep]
          exact hs
        · have hstep : (checkRateLimit s ip now).2
              = rlSet s ip ⟨record.count + 1, record.resetAt⟩ := by
            simp [checkRateLimit, hget, h1, h2]
          rw [hstep]
          intro p hp
          rcases mem_rlSet hp with h | h
          · subst h
            have hlt : record.count < 5 := by
              simpa [RATE_LIMIT_REQUESTS] using Nat.lt_of_not_le h2
            exact ⟨Nat.le_add_left 1 _, by
              show record.count + 1 ≤ 5
              omega⟩
          · exact hs p h

lemma RLInv_rlRunState {s : RLState} (hs : RLInv s)
    (calls : List (String × Nat)) : RLInv (rlRunState s calls) := by
  induction calls generalizing s with
  | nil => simpa [rlRunState] using hs
  | cons c cs ih =>
      exact ih (RLInv_checkRateLimit c.1 c.2 hs)

lemma checkRateLimit_true_iff (s : RLState) (ip : String) (now : Nat) :
    (checkRateLimit s ip now).1 = true ↔
      rlGet (checkRateLimit s ip now).2 ip ≠ rlGet s ip := by
  cases hget : rlGet s ip with
  | none =>
      have hstep : checkRateLimit s ip now
          = (true, rlSet s ip ⟨1, now + RATE_LIMIT_WINDOW_MS⟩) := by
        simp [checkRateLimit, hget]
      simp [hstep, rlGet_rlSet_same, hget]
  | some record =>
      by_cases h1 : record.resetAt < now
      · have hstep : checkRateLimit s ip now
            = (true, rlSet s ip ⟨1, now + RATE_LIMIT_WINDOW_MS⟩) := by
          simp [checkRateLimit, hget, h1]
        have hne : (⟨1, now + RATE_LIMIT_WINDOW_MS⟩ : RLRecord) ≠ record := by
          intro h
          have hr := congrArg RLRecord.resetAt h
          simp at hr
          omega
        simp [hstep, rlGet_rlSet_same, hget, hne]
      · by_cases h2 : RATE_LIMIT_REQUESTS ≤ record.count
        · have hstep : checkRateLimit s ip now = (false, s) := by
            simp [checkRateLimit, hget, h1, h2]
          rw [hstep]
          exact iff_of_false (by simp) (by simp [hget])
        · have hstep : checkRateLimit s ip now
              = (true, rlSet s ip ⟨record.count + 1, record.resetAt⟩) := by
            simp [checkRateLimit, hget, h1, h2]
          have hne : (⟨record.count + 1, record.resetAt⟩ : RLRecord) ≠ record := by
            intro h
            have hr := congrArg RLRecord.count h
            simp at hr
          simp [hstep, rlGet_rlSet_same, hget, hne]

lemma rlRun_in_window (ip : String) (r : Nat) :
    ∀ (ts : List Nat) (s : RLState) (c : Nat),
      rlGet s ip = some ⟨c, r⟩ → (∀ t ∈ ts, t ≤ r) →
      rlRun s ip ts = (List.range ts.length).map (fun i => decide (c + i < 5)) := by
  intro ts
  induction ts with
  | nil => intro s c _ _; simp [rlRun]
  | cons t ts' ih =>
      intro s c hget hts
      have htr : ¬ r < t := Nat.not_lt.2 (hts t (List.mem_cons_self t ts'))
      have htail : ∀ u ∈ ts', u ≤ r := fun u hu => hts u (List.mem_cons_of_mem _ hu)
      by_cases hc : 5 ≤ c
      · have hstep : checkRateLimit s ip t = (false, s) := by
          simp [checkRateLimit, hget, htr, RATE_LIMIT_REQUESTS, hc]
      
        have hrest := ih s c hget htail
        have lhs_eq : rlRun s ip (t :: ts') = false :: rlRun s ip ts' := by
          simp [rlRun, hstep]
        rw [lhs_eq, hrest]
        simp only [List.length_cons, List.range_succ_eq_map, List.map_cons,
          List.map_map]
        refine congrArg₂ List.cons ?_ ?_
        · exact (decide_eq_false (by omega)).symm
        · refine List.map_congr_left ?_
          intro a _
          have hiff : c + a < 5 ↔ c + Nat.succ a < 5 := by omega
          exact decide_eq_decide.2 hiff
      · have hstep : checkRateLimit s ip t = (true, rlSet s ip ⟨c + 1, r⟩) := by
          simp [checkRateLimit, hget, htr, RATE_LIMIT_REQUESTS, hc]
        have hget' : rlGet (rlSet s ip ⟨c + 1, r⟩) ip = some ⟨c + 1, r⟩ :=
          rlGet_rlSet_same s ip _
        have hrest := ih (rlSet s ip ⟨c + 1, r⟩) (c + 1) hget' htail
        have lhs_eq : rlRun s ip (t :: ts')
            = true :: rlRun (rlSet s ip ⟨c + 1, r⟩) ip ts' := by
          simp [rlRun, hstep]
        rw [lhs_eq, hrest]
        simp only [List.length_cons, List.range_succ_eq_map, List.map_cons,
          List.map_map]
        refine congrArg₂ List.cons ?_ ?_
        · exact (decide_eq_true (by omega)).symm
        · refine List.map_congr_left ?_
          intro a _
          have hiff : c + 1 + a < 5 ↔ c + Nat.succ a < 5 := by omega
          exact decide_eq_decide.2 hiff

lemma rlRun_fresh_window (ip : String) (t0 : Nat) (s : RLState)
    (rest : List Nat) (hget : rlGet s ip = none)
    (hin : ∀ t ∈ rest, t ≤ t0 + RATE_LIMIT_WINDOW_MS) :
    rlRun s ip (t0 :: rest)
      = (List.range (rest.length + 1)).map (fun i => decide (i < 5)) := by
  have hstep : checkRateLimit s ip t0
      = (true, rlSet s ip ⟨1, t0 + RATE_LIMIT_WINDOW_MS⟩) := by
    simp [checkRateLimit, hget]
  have hget' : rlGet (rlSet s ip ⟨1, t0 + RATE_LIMIT_WINDOW_MS⟩) ip
      = some ⟨1, t0 + RATE_LIMIT_WINDOW_MS⟩ := rlGet_rlSet_same s ip _
  have hrest := rlRun_in_window ip (t0 + RATE_LIMIT_WINDOW_MS) rest
    (rlSet s ip ⟨1, t0 + RATE_LIMIT_WINDOW_MS⟩) 1 hget' hin
  have lhs_eq : rlRun s ip (t0 :: rest)
      = true :: rlRun (rlSet s ip ⟨1, t0 + RATE_LIMIT_WINDOW_MS⟩) ip rest := by
    simp [rlRun, hstep]
  rw [lhs_eq, hrest]
  simp only [List.range_succ_eq_map, List.map_cons, List.map_map]
  refine congrArg₂ List.cons (by simp) ?_
  refine List.map_congr_left ?_
  intro a _
  have hiff : 1 + a < 5 ↔ Nat.succ a < 5 := by omega
  exact decide_eq_decide.2 hiff

lemma chPrefixB_map (f : Char → Char) :
    ∀ (n hay : List Char), chPrefixB n hay = true →
      chPrefixB (n.map f) (hay.map f) = true := by
  intro n
  induction n with
  | nil => intro hay _; simp [chPrefixB]
  | cons a as ih =>
      intro hay hp
      cases hay with
      | nil => simp [chPrefixB] at hp
      | cons b bs =>
          simp only [chPrefixB, Bool.and_eq_true, decide_eq_true_eq] at hp
          simp only [List.map_cons, chPrefixB, Bool.and_eq_true, decide_eq_true_eq]
          exact ⟨congrArg f hp.1, ih bs hp.2⟩

lemma chInfixB_map (f : Char → Char) :
    ∀ (hay n : List Char), chInfixB n hay = true →
      chInfixB (n.map f) (hay.map f) = true := by
  intro hay
  induction hay with
  | nil =>
      intro n hn
      simp only [chInfixB, List.isEmpty_iff] at hn
      subst hn
      simp [chInfixB]
  | cons c rest ih =>
      intro n hn
      simp only [chInfixB, Bool.or_eq_true] at hn
      rcases hn with hn | hn
      · have hp := chPrefixB_map f n (c :: rest) hn
        simp only [List.map_cons] at hp ⊢
        simp [chInfixB, hp]
      · have hi := ih n hn
        simp only [List.map_cons]
        simp [chInfixB, hi]

lemma all_ws_of_jsTrim_empty {s : String} (h : jsTrim s = "") :
    ∀ c ∈ s.toList, isWsChar c = true := by
  have h1 : ((s.toList.dropWhile isWsChar).reverse.dropWhile isWsChar).reverse
      = [] := congrArg String.toList h
  have h2 : (s.toList.dropWhile isWsChar).reverse.dropWhile isWsChar = [] := by
    simpa using congrArg List.reverse h1
  have h3 : ∀ c ∈ (s.toList.dropWhile isWsChar).reverse, isWsChar c :=
    List.dropWhile_eq_nil_iff.mp h2
  have h4 : ∀ c ∈ s.toList.dropWhile isWsChar, isWsChar c :=
    fun c hc => h3 c (List.mem_reverse.mpr hc)
  intro c hc
  rw [← List.takeWhile_append_dropWhile (p := isWsChar) (l := s.toList)] at hc
  rcases List.mem_append.mp hc with hc | hc
  · exact List.mem_takeWhile_imp hc
  · exact h4 c hc

lemma chInfixB_at_false_of_all_ws :
    ∀ (l : List Char), (∀ c ∈ l, isWsChar c = true) →
      chInfixB ['@'] l = false := by
  intro l
  induction l with
  | nil => intro _; rfl
  | cons x rest ih =>
      intro hws
      have hx : isWsChar x = true := hws x (List.mem_cons_self x rest)
      have hxne : ¬ ('@' = x) := by
        intro hxx
        rw [← hxx] at hx
        simp [isWsChar] at hx
      have hr := ih fun c hc => hws c (List.mem_cons_of_mem _ hc)
      simp [chInfixB, chPrefixB, hxne, hr]

lemma jsIncludes_at_false_of_trim_empty {s : String} (h : jsTrim s = "") :
    jsIncludes s "@" = false := by
  have hws := all_ws_of_jsTrim_empty h
  have := chInfixB_at_false_of_all_ws s.toList hws
  simpa [jsIncludes] using this

lemma jsTrim_ne_empty_imp {c : String} (h : jsTrim c ≠ "") : c ≠ "" := by
  intro hc
  rw [hc] at h
  exact h rfl

lemma nlDupMessage_of_contains {msg : String}
    (h : chInfixB "already subscribed".toList msg.toList = true ∨
         chInfixB "already pending".toList msg.toList = true ∨
         chInfixB "is already on the list".toList msg.toList = true) :
    nlDupMessage (some msg) = true := by
  simp only [nlDupMessage, jsIncludes, Bool.or_eq_true]
  have htl : (jsToLower msg).toList = msg.toList.map Char.toLower := rfl
  rcases h with h | h | h
  · have h2 := chInfixB_map Char.toLower msg.toList _ h
    rw [show ("already subscribed".toList.map Char.toLower)
        = "already subscribed".toList from by decide] at h2
    rw [htl]
    exact Or.inl (Or.inl h2)
  · have h2 := chInfixB_map Char.toLower msg.toList _ h
    rw [show ("already pending".toList.map Char.toLower)
        = "already pending".toList from by decide] at h2
    rw [htl]
    exact Or.inl (Or.inr h2)
  · have h2 := chInfixB_map Char.toLower msg.toList _ h
    rw [show ("is already on the list".toList.map Char.toLower)
        = "is already on the list".toList from by decide] at h2
    rw [htl]
    exact Or.inr h2

/-- C10: over every sequence of checkRateLimit calls starting from the empty
map, every stored count stays in 1..5 (the counter never exceeds the limit of
5), one call preserves that invariant from any state satisfying it, and a
call returns true exactly when it changed the entry stored under its key
(stored a fresh window record or incremented the count); on false the map is
untouched. -/
theorem C10_rate_limit_invariant :
    (∀ calls : List (String × Nat), RLInv (rlRunState [] calls)) ∧
    (∀ (s : RLState) (ip : String) (now : Nat), RLInv s →
       RLInv (checkRateLimit s ip now).2) ∧
    (∀ (s : RLState) (ip : String) (now : Nat),
       (checkRateLimit s ip now).1 = true ↔
         rlGet (checkRateLimit s ip now).2 ip ≠ rlGet s ip) :=
  ⟨fun calls =>
      RLInv_rlRunState (fun p hp => absurd hp (List.not_mem_nil p)) calls,
   fun _ ip now hs => RLInv_checkRateLimit ip now hs,
   checkRateLimit_true_iff⟩

/-- Witness for C10 at concrete inputs. -/
theorem C10_rate_limit_invariant_witness :
    RLInv (rlRunState [] [("a", 5), ("a", 6), ("b", 7)]) ∧
    RLInv (checkRateLimit [("a", ⟨2, 60⟩)] "a" 30).2 ∧
    ((checkRateLimit [("a", ⟨2, 60⟩)] "a" 30).1 = true ↔
      rlGet (checkRateLimit [("a", ⟨2, 60⟩)] "a" 30).2 "a"
        ≠ rlGet [("a", ⟨2, 60⟩)] "a") :=
  ⟨C10_rate_limit_invariant.1 [("a", 5), ("a", 6), ("b", 7)],
   C10_rate_limit_invariant.2.1 [("a", ⟨2, 60⟩)] "a" 30
     (by unfold RLInv; decide),
   C10_rate_limit_invariant.2.2 [("a", ⟨2, 60⟩)] "a" 30⟩

/-- C3: (i) starting from a key with no live record, a run of calls whose
later times all lie within the 60-second window opened by the first call
answers true for the first five calls and false for the sixth and all later
calls in the window; (ii) a newsletter request that passes the honeypot and
email checks while its client already has a full in-window record (count at
least 5, current time not past the reset timestamp) is answered 429 with no
upstream effect and an unchanged map; (iii) a call arriving strictly after
the stored reset timestamp starts a new window with count 1. -/
theorem C3_rate_limit_window :
    (∀ (s : RLState) (ip : String) (t0 : Nat) (rest : List Nat),
       rlGet s ip = none → (∀ t ∈ rest, t ≤ t0 + RATE_LIMIT_WINDOW_MS) →
       rlRun s ip (t0 :: rest)
         = (List.range (rest.length + 1)).map (fun i => decide (i < 5))) ∧
    (∀ (prod : Bool) (cfg : NLConfig) (b : NLBody) (ip : String) (now : Nat)
       (st : RLState) (store : NLStoreOutcome) (rec : RLRecord),
       hpTriggered b.company = false → emailMissing b.email = false →
       isValidEmail (jsTrim (b.email.getD "")) = true →
       rlGet st ip = some rec → now ≤ rec.resetAt → 5 ≤ rec.count →
       newsletterMinimalPost prod cfg (some b) ip now st store
         = ⟨⟨429, .successFalse "Too many requests. Please try again later."⟩,
            noEffects, st⟩) ∧
    (∀ (s : RLState) (ip : String) (now : Nat) (rec : RLRecord),
       rlGet s ip = some rec → rec.resetAt < now →
       checkRateLimit s ip now
         = (true, rlSet s ip ⟨1, now + RATE_LIMIT_WINDOW_MS⟩)) := by
  refine ⟨fun s ip t0 rest hget hin => rlRun_fresh_window ip t0 s rest hget hin,
    ?_, ?_⟩
  · intro prod cfg b ip now st store rec hhp hem hval hget hle hcount
    have hstep : checkRateLimit st ip now = (false, st) := by
      simp [checkRateLimit, hget, Nat.not_lt.2 hle, RATE_LIMIT_REQUESTS, hcount]
    simp [newsletterMinimalPost, hhp, hem, hval, hstep]
  · intro s ip now rec hget hlt
    simp [checkRateLimit, hget, hlt]

/-- Witness for C3 at concrete inputs: six calls inside one window answer
true five times then false; a full window answers 429; a call one
millisecond after the reset timestamp reopens the window with count 1. -/
theorem C3_rate_limit_window_witness :
    rlRun [] "ip" (0 :: [1, 2, 3, 4, 5])
        = (List.range (([1, 2, 3, 4, 5] : List Nat).length + 1)).map
            (fun i => decide (i < 5)) ∧
    newsletterMinimalPost true ⟨some "k", some "l"⟩ (some ⟨some "a@b.com", none⟩)
        "ip" 30 [("ip", ⟨5, 60⟩)] .threw
      = ⟨⟨429, .successFalse "Too many requests. Please try again later."⟩,
         noEffects, [("ip", ⟨5, 60⟩)]⟩ ∧
    checkRateLimit [("ip", ⟨3, 60⟩)] "ip" 61
      = (true, rlSet [("ip", ⟨3, 60⟩)] "ip" ⟨1, 61 + RATE_LIMIT_WINDOW_MS⟩) :=
  ⟨C3_rate_limit_window.1 [] "ip" 0 [1, 2, 3, 4, 5] rfl (by decide),
   C3_rate_limit_window.2.1 true ⟨some "k", some "l"⟩ ⟨some "a@b.com", none⟩
     "ip" 30 [("ip", ⟨5, 60⟩)] .threw ⟨5, 60⟩ (by decide) (by decide)
     (by decide) (by decide) (by decide) (by decide),
   C3_rate_limit_window.2.2 [("ip", ⟨3, 60⟩)] "ip" 61 ⟨3, 60⟩ (by decide)
     (by decide)⟩

/-- C2 counterexample: a merch request whose honeypot field company is the
non-empty string consisting of one space is not short-circuited — the
handler proceeds and the upstream store write is attempted, contradicting
the claim that any non-empty company value yields a success outcome with no
upstream call.  (The source tests company.trim().length, not company
itself.) -/
theorem C2_counterexample :
    (" " : String) ≠ "" ∧
    (merchPost ⟨some "pat", some "base", some "tbl", none⟩
        (some ⟨some "Ada", some "a@b.com", some "M", none, some " "⟩)
        (.resp true 200) (.resp true)).effects.storeWrite = true := by
  decide

/-- C2 amended: at every honeypot-protected endpoint, a request whose
company field is non-empty after trimming whitespace is answered 200 with a
success body, no outbound call is attempted, and (for the newsletter
endpoints) the rate-limit map is untouched. -/
theorem C2_honeypot_amended :
    (∀ (cfg : MerchConfig) (b : MerchBody) (store : StoreOutcome)
       (sl : SideOutcome) (c : String), b.company = some c → jsTrim c ≠ "" →
       merchPost cfg (some b) store sl = ⟨⟨200, .successTrue⟩, noEffects, none⟩) ∧
    (∀ (prod : Bool) (cfg : NLConfig) (b : NLBody) (ip : String) (now : Nat)
       (st : RLState) (store : NLStoreOutcome) (c : String),
       b.company = some c → jsTrim c ≠ "" →
       newsletterMinimalPost prod cfg (some b) ip now st store
         = ⟨⟨200, .successTrue⟩, noEffects, st⟩) ∧
    (∀ (cfg : NLConfig) (b : NLNamedBody) (ip : String) (now : Nat)
       (st : RLState) (store : NLStoreOutcome) (c : String),
       b.company = some c → jsTrim c ≠ "" →
       newsletterNamedPost cfg (some b) ip now st store
         = ⟨⟨200, .successTrue⟩, noEffects, st⟩) := by
  refine ⟨?_, ?_, ?_⟩
  · intro cfg b store sl c hc htrim
    have hcne : c ≠ "" := jsTrim_ne_empty_imp htrim
    simp [merchPost, hpTriggered, hc, hcne, htrim]
  · intro prod cfg b ip now st store c hc htrim
    have hcne : c ≠ "" := jsTrim_ne_empty_imp htrim
    simp [newsletterMinimalPost, hpTriggered, hc, hcne, htrim]
  · intro cfg b ip now st store c hc htrim
    have hcne : c ≠ "" := jsTrim_ne_empty_imp htrim
    simp [newsletterNamedPost, hpTriggered, hc, hcne, htrim]

/-- Witness for the amended C2 at concrete inputs. -/
theorem C2_honeypot_amended_witness :
    merchPost ⟨none, none, none, none⟩ (some ⟨none, none, none, none, some "bot"⟩)
        .threw .threw = ⟨⟨200, .successTrue⟩, noEffects, none⟩ ∧
    newsletterMinimalPost false ⟨none, none⟩ (some ⟨none, some "bot"⟩)
        "ip" 0 [] .threw = ⟨⟨200, .successTrue⟩, noEffects, []⟩ ∧
    newsletterNamedPost ⟨none, none⟩ (some ⟨none, none, none, some "bot"⟩)
        "ip" 0 [] .threw = ⟨⟨200, .successTrue⟩, noEffects, []⟩ :=
  ⟨C2_honeypot_amended.1 ⟨none, none, none, none⟩ ⟨none, none, none, none, some "bot"⟩
      .threw .threw "bot" rfl (by decide),
   C2_honeypot_amended.2.1 false ⟨none, none⟩ ⟨none, some "bot"⟩ "ip" 0 [] .threw
      "bot" rfl (by decide),
   C2_honeypot_amended.2.2 ⟨none, none⟩ ⟨none, none, none, some "bot"⟩ "ip" 0 [] .threw
      "bot" rfl (by decide)⟩

/-- C1 counterexample: a valid minimal-newsletter request whose upstream
contact-creation call returns a non-success response (status 422, message
"validation error") reaches the upstream write and is answered with HTTP
500, not a 502-class status, contradicting the claim that every form
endpoint maps a failed authoritative write to 502. -/
theorem C1_counterexample :
    (newsletterMinimalPost true ⟨some "key", some "list"⟩
        (some ⟨some "a@b.com", none⟩) "203.0.113.7" 0 []
        (.resp false 422 (some "validation error"))).effects.storeWrite = true ∧
    (newsletterMinimalPost true ⟨some "key", some "list"⟩
        (some ⟨some "a@b.com", none⟩) "203.0.113.7" 0 []
        (.resp false 422 (some "validation error"))).resp.status = 500 ∧
    (500 : Nat) ≠ 502 := by
  decide

set_option maxHeartbeats 1600000 in
/-- C1 amended: when the authoritative store write is attempted and returns
a non-success response, the merch and community endpoints answer 502 and
attempt no side-channel notification; the newsletter endpoints answer HTTP
500 — not a 502-class status — except that a duplicate-subscription error
message is converted to a 200 success; the newsletter endpoints attempt no
side channel in any case. -/
theorem C1_upstream_failure_amended :
    (∀ (cfg : MerchConfig) (b? : Option MerchBody) (sl : SideOutcome) (st : Nat),
       (merchPost cfg b? (.resp false st) sl).effects.storeWrite = true →
       (merchPost cfg b? (.resp false st) sl).resp
           = ⟨502, .successFalse "Server error"⟩ ∧
       (merchPost cfg b? (.resp false st) sl).effects.slack = false ∧
       (merchPost cfg b? (.resp false st) sl).effects.confirmEmail = false) ∧
    (∀ (o : Option String) (so : String) (cfg : CAConfig) (b? : Option CABody)
       (sl em : SideOutcome) (st : Nat),
       (communityApplyPost o so cfg b? (.resp false st) sl em).effects.storeWrite
           = true →
       (communityApplyPost o so cfg b? (.resp false st) sl em).resp
           = ⟨502, .errOnly "Failed to submit application"⟩ ∧
       (communityApplyPost o so cfg b? (.resp false st) sl em).effects.slack
           = false ∧
       (communityApplyPost o so cfg b? (.resp false st) sl em).effects.confirmEmail
           = false) ∧
    (∀ (prod : Bool) (cfg : NLConfig) (b? : Option NLBody) (ip : String)
       (now : Nat) (st : RLState) (status : Nat) (msg : Option String),
       (newsletterMinimalPost prod cfg b? ip now st
           (.resp false status msg)).effects.storeWrite = true →
       (newsletterMinimalPost prod cfg b? ip now st
           (.resp false status msg)).resp.status
           = (if nlDupMessage msg then 200 else 500) ∧
       (newsletterMinimalPost prod cfg b? ip now st
           (.resp false status msg)).effects.slack = false ∧
       (newsletterMinimalPost prod cfg b? ip now st
           (.resp false status msg)).effects.confirmEmail = false) ∧
    (∀ (cfg : NLConfig) (b? : Option NLNamedBody) (ip : String)
       (now : Nat) (st : RLState) (status : Nat) (msg : Option String),
       (newsletterNamedPost cfg b? ip now st
           (.resp false status msg)).effects.storeWrite = true →
       (newsletterNamedPost cfg b? ip now st
           (.resp false status msg)).resp.status
           = (if nlDupMessage msg then 200 else 500) ∧
       (newsletterNamedPost cfg b? ip now st
           (.resp false status msg)).effects.slack = false ∧
       (newsletterNamedPost cfg b? ip now st
           (.resp false status msg)).effects.confirmEmail = false) := by
  refine ⟨?_, ?_, ?_, ?_⟩
  · intro cfg b? sl st h
    rcases b? with _ | body
    · simp [merchPost, noEffects] at h
    · simp only [merchPost] at h ⊢
      split_ifs at h ⊢ <;> simp_all [noEffects]
  · intro o so cfg b? sl em st h
    rcases b? with _ | body
    · simp only [communityApplyPost] at h
      split_ifs at h <;> simp [noEffects] at h
    · simp only [communityApplyPost] at h ⊢
      split_ifs at h ⊢ <;> simp_all [noEffects]
  · intro prod cfg b? ip now st status msg h
    rcases b? with _ | body
    · simp [newsletterMinimalPost, noEffects] at h
    · simp only [newsletterMinimalPost] at h ⊢
      split_ifs at h ⊢ <;> simp_all [noEffects]
  · intro cfg b? ip now st status msg h
    rcases b? with _ | body
    · simp [newsletterNamedPost, noEffects] at h
    · simp only [newsletterNamedPost] at h ⊢
      split_ifs at h ⊢ <;> simp_all [noEffects]

/-- Witness for the amended C1 at concrete inputs (valid requests whose
store write fails with a non-duplicate error). -/
theorem C1_upstream_failure_amended_witness :
    ((merchPost ⟨some "p", some "b", some "t", some "w"⟩
        (some ⟨some "Ada", some "a@b.com", some "M", none, none⟩)
        (.resp false 503) .threw).resp = ⟨502, .successFalse "Server error"⟩ ∧
      (merchPost ⟨some "p", some "b", some "t", some "w"⟩
        (some ⟨some "Ada", some "a@b.com", some "M", none, none⟩)
        (.resp false 503) .threw).effects.slack = false ∧
      (merchPost ⟨some "p", some "b", some "t", some "w"⟩
        (some ⟨some "Ada", some "a@b.com", some "M", none, none⟩)
        (.resp false 503) .threw).effects.confirmEmail = false) ∧
    ((communityApplyPost none "https://site" ⟨some "p", some "b", some "t",
          none, some "w", some "r", some "f", none⟩
        (some ⟨some "Ada", some "a@b", none, none, none, none, none, none,
          none, none⟩) (.resp false 503) .threw .threw).resp
        = ⟨502, .errOnly "Failed to submit application"⟩ ∧
      (communityApplyPost none "https://site" ⟨some "p", some "b", some "t",
          none, some "w", some "r", some "f", none⟩
        (some ⟨some "Ada", some "a@b", none, none, none, none, none, none,
          none, none⟩) (.resp false 503) .threw .threw).effects.slack = false ∧
      (communityApplyPost none "https://site" ⟨some "p", some "b", some "t",
          none, some "w", some "r", some "f", none⟩
        (some ⟨some "Ada", some "a@b", none, none, none, none, none, none,
          none, none⟩) (.resp false 503) .threw .threw).effects.confirmEmail
        = false) ∧
    ((newsletterMinimalPost true ⟨some "k", some "l"⟩
        (some ⟨some "a@b.com", none⟩) "ip" 0 []
        (.resp false 422 (some "validation error"))).resp.status
        = (if nlDupMessage (some "validation error") then 200 else 500) ∧
      (newsletterMinimalPost true ⟨some "k", some "l"⟩
        (some ⟨some "a@b.com", none⟩) "ip" 0 []
        (.resp false 422 (some "validation error"))).effects.slack = false ∧
      (newsletterMinimalPost true ⟨some "k", some "l"⟩
        (some ⟨some "a@b.com", none⟩) "ip" 0 []
        (.resp false 422 (some "validation error"))).effects.confirmEmail
        = false) ∧
    ((newsletterNamedPost ⟨some "k", some "l"⟩
        (some ⟨some "a@b.com", some "Ada", some "Lovelace", none⟩) "ip" 0 []
        (.resp false 422 (some "validation error"))).resp.status
        = (if nlDupMessage (some "validation error") then 200 else 500) ∧
      (newsletterNamedPost ⟨some "k", some "l"⟩
        (some ⟨some "a@b.com", some "Ada", some "Lovelace", none⟩) "ip" 0 []
        (.resp false 422 (some "validation error"))).effects.slack = false ∧
      (newsletterNamedPost ⟨some "k", some "l"⟩
        (some ⟨some "a@b.com", some "Ada", some "Lovelace", none⟩) "ip" 0 []
        (.resp false 422 (some "validation error"))).effects.confirmEmail
        = false) :=
  ⟨C1_upstream_failure_amended.1 ⟨some "p", some "b", some "t", some "w"⟩
      (some ⟨some "Ada", some "a@b.com", some "M", none, none⟩) .threw 503
      (by decide),
   C1_upstream_failure_amended.2.1 none "https://site" ⟨some "p", some "b",
      some "t", none, some "w", some "r", some "f", none⟩
      (some ⟨some "Ada", some "a@b", none, none, none, none, none, none,
        none, none⟩) .threw .threw 503 (by decide),
   C1_upstream_failure_amended.2.2.1 true ⟨some "k", some "l"⟩
      (some ⟨some "a@b.com", none⟩) "ip" 0 [] 422 (some "validation error")
      (by decide),
   C1_upstream_failure_amended.2.2.2 ⟨some "k", some "l"⟩
      (some ⟨some "a@b.com", some "Ada", some "Lovelace", none⟩) "ip" 0 [] 422
      (some "validation error") (by decide)⟩

lemma caEmailInvalid_of_reqStrMissing {e : Option String}
    (h : reqStrMissing e = true) : caEmailInvalid e = true := by
  cases e with
  | none => rfl
  | some s =>
      simp only [reqStrMissing, Bool.or_eq_true, beq_iff_eq] at h
      rcases h with h | h
      · simp [caEmailInvalid, h]
      · simp [caEmailInvalid, jsIncludes_at_false_of_trim_empty h]

/-- C4 counterexample: a name-qualified newsletter request that is missing
the required email field but carries a non-empty honeypot value is answered
200 — not a 400 naming the field — because the honeypot short-circuit runs
before field validation. -/
theorem C4_counterexample :
    (⟨none, none, none, some "padding"⟩ : NLNamedBody).email = none ∧
    (newsletterNamedPost ⟨some "k", some "l"⟩
        (some ⟨none, none, none, some "padding"⟩) "ip" 0 [] .threw).resp
      = ⟨200, .successTrue⟩ ∧
    (newsletterNamedPost ⟨some "k", some "l"⟩
        (some ⟨none, none, none, some "padding"⟩) "ip" 0 [] .threw).resp.status
      ≠ 400 := by
  decide

/-- C4 amended: among requests that reach field validation (origin and
configuration checks passed where they precede it, body parsed, honeypot
empty), a missing or trim-empty required field is answered 400 with an
error message naming that field and no upstream write, and the first
violation in check order is the one reported: at the community endpoint
fullName then email; at the name-qualified newsletter endpoint email then
firstName then lastName (a present-but-blank email is reported as invalid
format).  Requests short-circuited before validation (for example by a
non-empty honeypot) receive that earlier outcome instead of a 400. -/
theorem C4_required_fields_amended :
    (∀ (o : Option String) (so : String) (cfg : CAConfig) (b : CABody)
       (store : StoreOutcome) (sl em : SideOutcome),
       (optTruthy o && !((o.getD "") == so)) = false → caMissingVars cfg = [] →
       reqStrMissing b.fullName = true →
       communityApplyPost o so cfg (some b) store sl em
         = ⟨⟨400, .errOnly "fullName is required"⟩, noEffects, none⟩) ∧
    (∀ (o : Option String) (so : String) (cfg : CAConfig) (b : CABody)
       (store : StoreOutcome) (sl em : SideOutcome),
       (optTruthy o && !((o.getD "") == so)) = false → caMissingVars cfg = [] →
       reqStrMissing b.fullName = false → reqStrMissing b.email = true →
       communityApplyPost o so cfg (some b) store sl em
         = ⟨⟨400, .errOnly "Valid email is required"⟩, noEffects, none⟩) ∧
    (∀ (cfg : NLConfig) (b : NLNamedBody) (ip : String) (now : Nat)
       (st : RLState) (store : NLStoreOutcome),
       hpTriggered b.company = false → reqStrMissing b.email = true →
       (newsletterNamedPost cfg (some b) ip now st store).resp.status = 400 ∧
       ((newsletterNamedPost cfg (some b) ip now st store).resp.body
           = .successFalse "Email is required" ∨
        (newsletterNamedPost cfg (some b) ip now st store).resp.body
           = .successFalse "Invalid email format") ∧
       (newsletterNamedPost cfg (some b) ip now st store).effects = noEffects ∧
       (newsletterNamedPost cfg (some b) ip now st store).state = st) ∧
    (∀ (cfg : NLConfig) (b : NLNamedBody) (ip : String) (now : Nat)
       (st : RLState) (store : NLStoreOutcome),
       hpTriggered b.company = false → emailMissing b.email = false →
       isValidEmail (jsTrim (b.email.getD "")) = true →
       reqStrMissing b.firstName = true →
       newsletterNamedPost cfg (some b) ip now st store
         = ⟨⟨400, .successFalse "First name is required"⟩, noEffects, st⟩) ∧
    (∀ (cfg : NLConfig) (b : NLNamedBody) (ip : String) (now : Nat)
       (st : RLState) (store : NLStoreOutcome),
       hpTriggered b.company = false → emailMissing b.email = false →
       isValidEmail (jsTrim (b.email.getD "")) = true →
       reqStrMissing b.firstName = false → reqStrMissing b.lastName = true →
       newsletterNamedPost cfg (some b) ip now st store
         = ⟨⟨400, .successFalse "Last name is required"⟩, noEffects, st⟩) := by
  refine ⟨?_, ?_, ?_, ?_, ?_⟩
  · intro o so cfg b store sl em horigin hcfg hname
    simp [communityApplyPost, horigin, hcfg, hname]
  · intro o so cfg b store sl em horigin hcfg hname hemail
    simp [communityApplyPost, horigin, hcfg, hname,
      caEmailInvalid_of_reqStrMissing hemail]
  · intro cfg b ip now st store hhp hemail
    cases hb : b.email with
    | none =>
        have h1 : emailMissing b.email = true := by simp [emailMissing, hb]
        simp [newsletterNamedPost, hhp, h1]
    | some s =>
        by_cases hs : s = ""
        · have h1 : emailMissing b.email = true := by
            simp [emailMissing, hb, hs]
          simp [newsletterNamedPost, hhp, h1]
        · have htrim : jsTrim s = "" := by
            rw [hb] at hemail
            simpa [reqStrMissing, hs] using hemail
          have h1 : emailMissing b.email = false := by
            simp [emailMissing, hb, hs]
          have h2 : isValidEmail (jsTrim (b.email.getD "")) = false := by
            simp only [hb, Option.getD_some]
            rw [htrim]
            decide
          simp [newsletterNamedPost, hhp, h1, h2]
  · intro cfg b ip now st store hhp hem hval hfn
    simp [newsletterNamedPost, hhp, hem, hval, hfn]
  · intro cfg b ip now st store hhp hem hval hfn hln
    simp [newsletterNamedPost, hhp, hem, hval, hfn, hln]

/-- Witness for the amended C4 at concrete inputs. -/
theorem C4_required_fields_amended_witness :
    communityApplyPost none "https://site" ⟨some "p", some "b", some "t", none,
        none, none, none, none⟩
        (some ⟨some "  ", some "a@b", none, none, none, none, none, none,
          none, none⟩) .threw .threw .threw
      = ⟨⟨400, .errOnly "fullName is required"⟩, noEffects, none⟩ ∧
    communityApplyPost none "https://site" ⟨some "p", some "b", some "t", none,
        none, none, none, none⟩
        (some ⟨some "Ada", none, none, none, none, none, none, none,
          none, none⟩) .threw .threw .threw
      = ⟨⟨400, .errOnly "Valid email is required"⟩, noEffects, none⟩ ∧
    ((newsletterNamedPost ⟨some "k", some "l"⟩ (some ⟨none, none, none, none⟩)
        "ip" 0 [] .threw).resp.status = 400 ∧
      ((newsletterNamedPost ⟨some "k", some "l"⟩ (some ⟨none, none, none, none⟩)
        "ip" 0 [] .threw).resp.body = .successFalse "Email is required" ∨
       (newsletterNamedPost ⟨some "k", some "l"⟩ (some ⟨none, none, none, none⟩)
        "ip" 0 [] .threw).resp.body = .successFalse "Invalid email format") ∧
      (newsletterNamedPost ⟨some "k", some "l"⟩ (some ⟨none, none, none, none⟩)
        "ip" 0 [] .threw).effects = noEffects ∧
      (newsletterNamedPost ⟨some "k", some "l"⟩ (some ⟨none, none, none, none⟩)
        "ip" 0 [] .threw).state = []) ∧
    newsletterNamedPost ⟨some "k", some "l"⟩
        (some ⟨some "a@b.com", none, some "Lovelace", none⟩) "ip" 0 [] .threw
      = ⟨⟨400, .successFalse "First name is required"⟩, noEffects, []⟩ ∧
    newsletterNamedPost ⟨some "k", some "l"⟩
        (some ⟨some "a@b.com", some "Ada", some " ", none⟩) "ip" 0 [] .threw
      = ⟨⟨400, .successFalse "Last name is required"⟩, noEffects, []⟩ :=
  ⟨C4_required_fields_amended.1 none "https://site" ⟨some "p", some "b",
      some "t", none, none, none, none, none⟩
      ⟨some "  ", some "a@b", none, none, none, none, none, none, none, none⟩
      .threw .threw .threw (by decide) (by decide) (by decide),
   C4_required_fields_amended.2.1 none "https://site" ⟨some "p", some "b",
      some "t", none, none, none, none, none⟩
      ⟨some "Ada", none, none, none, none, none, none, none, none, none⟩
      .threw .threw .threw (by decide) (by decide) (by decide) (by decide),
   C4_required_fields_amended.2.2.1 ⟨some "k", some "l"⟩
      ⟨none, none, none, none⟩ "ip" 0 [] .threw (by decide) (by decide),
   C4_required_fields_amended.2.2.2.1 ⟨some "k", some "l"⟩
      ⟨some "a@b.com", none, some "Lovelace", none⟩ "ip" 0 [] .threw
      (by decide) (by decide) (by decide) (by decide),
   C4_required_fields_amended.2.2.2.2 ⟨some "k", some "l"⟩
      ⟨some "a@b.com", some "Ada", some " ", none⟩ "ip" 0 [] .threw
      (by decide) (by decide) (by decide) (by decide) (by decide)⟩

/-- C5 counterexample: the community endpoint accepts the email "a@b",
which fails the two-part local@domain-with-dot shape (no dot in the
domain), and proceeds all the way to a successful upstream write instead of
rejecting it with a bad-request outcome. -/
theorem C5_counterexample :
    isValidEmail "a@b" = false ∧
    (communityApplyPost none "https://site" ⟨some "p", some "b", some "t",
        none, none, none, none, none⟩
        (some ⟨some "Ada", some "a@b", none, none, none, none, none, none,
          none, none⟩) (.resp true 200) (.resp true) (.resp true)).effects.storeWrite
      = true ∧
    (communityApplyPost none "https://site" ⟨some "p", some "b", some "t",
        none, none, none, none, none⟩
        (some ⟨some "Ada", some "a@b", none, none, none, none, none, none,
          none, none⟩) (.resp true 200) (.resp true) (.resp true)).resp
      = ⟨200, .okTrue⟩ := by
  decide

/-- C5 amended: the merch and both newsletter endpoints reject a request
whose trimmed email fails the local@domain-with-dot shape with a 400
"Invalid email format" before any upstream write; the community endpoint
checks only that the email contains an at sign, so a shape-violating email
containing one proceeds to the upstream write there. -/
theorem C5_email_shape_amended :
    (∀ (cfg : MerchConfig) (b : MerchBody) (store : StoreOutcome)
       (sl : SideOutcome),
       hpTriggered b.company = false → reqStrMissing b.name = false →
       emailMissing b.email = false →
       isValidEmail (jsTrim (b.email.getD "")) = false →
       merchPost cfg (some b) store sl
         = ⟨⟨400, .successFalse "Invalid email format"⟩, noEffects, none⟩) ∧
    (∀ (prod : Bool) (cfg : NLConfig) (b : NLBody) (ip : String) (now : Nat)
       (st : RLState) (store : NLStoreOutcome),
       hpTriggered b.company = false → emailMissing b.email = false →
       isValidEmail (jsTrim (b.email.getD "")) = false →
       newsletterMinimalPost prod cfg (some b) ip now st store
         = ⟨⟨400, .successFalse "Invalid email format"⟩, noEffects, st⟩) ∧
    (∀ (cfg : NLConfig) (b : NLNamedBody) (ip : String) (now : Nat)
       (st : RLState) (store : NLStoreOutcome),
       hpTriggered b.company = false → emailMissing b.email = false →
       isValidEmail (jsTrim (b.email.getD "")) = false →
       newsletterNamedPost cfg (some b) ip now st store
         = ⟨⟨400, .successFalse "Invalid email format"⟩, noEffects, st⟩) ∧
    (∀ (o : Option String) (so : String) (cfg : CAConfig) (b : CABody)
       (store : StoreOutcome) (sl em : SideOutcome) (e : String),
       (optTruthy o && !((o.getD "") == so)) = false → caMissingVars cfg = [] →
       reqStrMissing b.fullName = false → b.email = some e →
       jsIncludes e "@" = true →
       (communityApplyPost o so cfg (some b) store sl em).effects.storeWrite
         = true) := by
  refine ⟨?_, ?_, ?_, ?_⟩
  · intro cfg b store sl hhp hname hem hval
    simp [merchPost, hhp, hname, hem, hval]
  · intro prod cfg b ip now st store hhp hem hval
    simp [newsletterMinimalPost, hhp, hem, hval]
  · intro cfg b ip now st store hhp hem hval
    simp [newsletterNamedPost, hhp, hem, hval]
  · intro o so cfg b store sl em e horigin hcfg hfn hb hinc
    have hene : e ≠ "" := by
      intro h
      rw [h] at hinc
      exact absurd hinc (by decide)
    have hce : caEmailInvalid b.email = false := by
      simp [caEmailInvalid, hb, hene, hinc]
    rcases store with _ | ⟨ok, st'⟩
    · simp [communityApplyPost, horigin, hcfg, hfn, hce]
    · rcases ok <;> simp [communityApplyPost, horigin, hcfg, hfn, hce]

/-- Witness for the amended C5 at concrete inputs ("a@b" has no dot in its
domain; "a b@c" contains an at sign but no dot and whitespace). -/
theorem C5_email_shape_amended_witness :
    merchPost ⟨some "p", some "b", some "t", none⟩
        (some ⟨some "Ada", some "a@b", some "M", none, none⟩) .threw .threw
      = ⟨⟨400, .successFalse "Invalid email format"⟩, noEffects, none⟩ ∧
    newsletterMinimalPost true ⟨some "k", some "l"⟩ (some ⟨some "a@b", none⟩)
        "ip" 0 [] .threw
      = ⟨⟨400, .successFalse "Invalid email format"⟩, noEffects, []⟩ ∧
    newsletterNamedPost ⟨some "k", some "l"⟩
        (some ⟨some "a@b", some "Ada", some "Lovelace", none⟩) "ip" 0 [] .threw
      = ⟨⟨400, .successFalse "Invalid email format"⟩, noEffects, []⟩ ∧
    (communityApplyPost none "https://site" ⟨some "p", some "b", some "t",
        none, none, none, none, none⟩
        (some ⟨some "Ada", some "a b@c", none, none, none, none, none, none,
          none, none⟩) .threw .threw .threw).effects.storeWrite = true :=
  ⟨C5_email_shape_amended.1 ⟨some "p", some "b", some "t", none⟩
      ⟨some "Ada", some "a@b", some "M", none, none⟩ .threw .threw
      (by decide) (by decide) (by decide) (by decide),
   C5_email_shape_amended.2.1 true ⟨some "k", some "l"⟩ ⟨some "a@b", none⟩
      "ip" 0 [] .threw (by decide) (by decide) (by decide),
   C5_email_shape_amended.2.2.1 ⟨some "k", some "l"⟩
      ⟨some "a@b", some "Ada", some "Lovelace", none⟩ "ip" 0 [] .threw
      (by decide) (by decide) (by decide),
   C5_email_shape_amended.2.2.2 none "https://site" ⟨some "p", some "b",
      some "t", none, none, none, none, none⟩
      ⟨some "Ada", some "a b@c", none, none, none, none, none, none, none,
        none⟩ .threw .threw .threw "a b@c" (by decide) (by decide) (by decide)
      rfl (by decide)⟩

/-- C6 counterexample: with every required configuration value absent, a
merch request with an unparseable body is answered 400 "Invalid JSON" — not
the server-misconfigured outcome — because the merch endpoint checks
configuration only after body parsing, honeypot and field validation. -/
theorem C6_counterexample :
    merchPost ⟨none, none, none, none⟩ none .threw .threw
      = ⟨⟨400, .successFalse "Invalid JSON"⟩, noEffects, none⟩ ∧
    (merchPost ⟨none, none, none, none⟩ none .threw .threw).resp.status ≠ 500 := by
  decide

/-- C6 amended: only the community endpoint checks configuration before
body parsing — there a request with missing configuration is answered 500
regardless of its body (parsed or not).  The merch endpoint checks
configuration only after parse, honeypot and field validation (an
unparseable body gets 400 even with configuration missing), and the
newsletter endpoint checks it only after those stages plus rate limiting,
so a request with missing configuration still consumes rate-limit budget
before being answered 500. -/
theorem C6_config_order_amended :
    (∀ (o : Option String) (so : String) (cfg : CAConfig) (b? : Option CABody)
       (store : StoreOutcome) (sl em : SideOutcome),
       (optTruthy o && !((o.getD "") == so)) = false → caMissingVars cfg ≠ [] →
       communityApplyPost o so cfg b? store sl em
         = ⟨⟨500, .configError "Server configuration error" (caMissingVars cfg)⟩,
            noEffects, none⟩) ∧
    (∀ (cfg : MerchConfig) (store : StoreOutcome) (sl : SideOutcome),
       merchPost cfg none store sl
         = ⟨⟨400, .successFalse "Invalid JSON"⟩, noEffects, none⟩) ∧
    (∀ (cfg : MerchConfig) (b : MerchBody) (store : StoreOutcome)
       (sl : SideOutcome),
       hpTriggered b.company = false → reqStrMissing b.name = false →
       emailMissing b.email = false →
       isValidEmail (jsTrim (b.email.getD "")) = true →
       reqStrMissing b.sizePreference = false →
       (!(optTruthy cfg.airtablePat) || !(optTruthy cfg.airtableBaseId)
         || !(optTruthy cfg.merchTableId)) = true →
       merchPost cfg (some b) store sl
         = ⟨⟨500, .successFalse "Server error"⟩, noEffects, none⟩) ∧
    (∀ (prod : Bool) (cfg : NLConfig) (b : NLBody) (ip : String) (now : Nat)
       (st : RLState) (store : NLStoreOutcome),
       hpTriggered b.company = false → emailMissing b.email = false →
       isValidEmail (jsTrim (b.email.getD "")) = true →
       (checkRateLimit st ip now).1 = true →
       (!(optTruthy cfg.apiKey) || !(optTruthy cfg.listId)) = true →
       newsletterMinimalPost prod cfg (some b) ip now st store
         = ⟨⟨500, .successFalse "Server configuration error"⟩, noEffects,
            (checkRateLimit st ip now).2⟩) := by
  refine ⟨?_, ?_, ?_, ?_⟩
  · intro o so cfg b? store sl em horigin hcfg
    have h2 : (caMissingVars cfg).isEmpty = false := by
      rcases hl : caMissingVars cfg with _ | ⟨x, xs⟩
      · exact absurd hl hcfg
      · rfl
    simp [communityApplyPost, horigin, h2]
  · intro cfg store sl
    rfl
  · intro cfg b store sl hhp hname hem hval hsize hmiss
    simp [merchPost, hhp, hname, hem, hval, hsize, hmiss]
  · intro prod cfg b ip now st store hhp hem hval hrl hmiss
    simp [newsletterMinimalPost, hhp, hem, hval, hrl, hmiss]

/-- Witness for the amended C6 at concrete inputs. -/
theorem C6_config_order_amended_witness :
    communityApplyPost none "https://site" ⟨none, some "b", some "t", none,
        none, none, none, none⟩ none .threw .threw .threw
      = ⟨⟨500, .configError "Server configuration error"
            (caMissingVars ⟨none, some "b", some "t", none, none, none, none,
              none⟩)⟩, noEffects, none⟩ ∧
    merchPost ⟨none, none, none, none⟩ none .threw .threw
      = ⟨⟨400, .successFalse "Invalid JSON"⟩, noEffects, none⟩ ∧
    merchPost ⟨none, none, none, none⟩
        (some ⟨some "Ada", some "a@b.com", some "M", none, none⟩) .threw .threw
      = ⟨⟨500, .successFalse "Server error"⟩, noEffects, none⟩ ∧
    newsletterMinimalPost true ⟨none, none⟩ (some ⟨some "a@b.com", none⟩)
        "ip" 7 [] .threw
      = ⟨⟨500, .successFalse "Server configuration error"⟩, noEffects,
         (checkRateLimit [] "ip" 7).2⟩ :=
  ⟨C6_config_order_amended.1 none "https://site" ⟨none, some "b", some "t",
      none, none, none, none, none⟩ none .threw .threw .threw (by decide)
      (by decide),
   C6_config_order_amended.2.1 ⟨none, none, none, none⟩ .threw .threw,
   C6_config_order_amended.2.2.1 ⟨none, none, none, none⟩
      ⟨some "Ada", some "a@b.com", some "M", none, none⟩ .threw .threw
      (by decide) (by decide) (by decide) (by decide) (by decide) (by decide),
   C6_config_order_amended.2.2.2 true ⟨none, none⟩ ⟨some "a@b.com", none⟩
      "ip" 7 [] .threw (by decide) (by decide) (by decide) (by decide)
      (by decide)⟩

/-- C8 counterexample: a fully valid merch request arriving while the
Airtable personal-access-token configuration is absent is answered 500 with
the fixed body "Server error" — a body that names no configuration key —
contradicting the claim that every endpoint enumerates which configuration
keys are absent. -/
theorem C8_counterexample :
    merchPost ⟨none, some "b", some "t", none⟩
        (some ⟨some "Ada", some "a@b.com", some "M", none, none⟩) .threw .threw
      = ⟨⟨500, .successFalse "Server error"⟩, noEffects, none⟩ := by
  decide

/-- C8 amended: only the community endpoint enumerates the absent
configuration keys, in a dedicated missing list whose entries are drawn
from a fixed set of three key-name strings (so configuration values are
never included); the merch and newsletter endpoints answer with a generic
error body that names no key. -/
theorem C8_config_enumeration_amended :
    (∀ (o : Option String) (so : String) (cfg : CAConfig) (b? : Option CABody)
       (store : StoreOutcome) (sl em : SideOutcome),
       (optTruthy o && !((o.getD "") == so)) = false → caMissingVars cfg ≠ [] →
       (communityApplyPost o so cfg b? store sl em).resp
         = ⟨500, .configError "Server configuration error" (caMissingVars cfg)⟩) ∧
    (∀ (cfg : CAConfig) (x : String), x ∈ caMissingVars cfg →
       x = "AIRTABLE_PAT" ∨ x = "AIRTABLE_BASE_ID" ∨
         x = "AIRTABLE_TABLE_ID or AIRTABLE_TABLE_NAME") ∧
    (∀ (cfg : MerchConfig) (b : MerchBody) (store : StoreOutcome)
       (sl : SideOutcome),
       hpTriggered b.company = false → reqStrMissing b.name = false →
       emailMissing b.email = false →
       isValidEmail (jsTrim (b.email.getD "")) = true →
       reqStrMissing b.sizePreference = false →
       (!(optTruthy cfg.airtablePat) || !(optTruthy cfg.airtableBaseId)
         || !(optTruthy cfg.merchTableId)) = true →
       (merchPost cfg (some b) store sl).resp
         = ⟨500, .successFalse "Server error"⟩) ∧
    (∀ (prod : Bool) (cfg : NLConfig) (b : NLBody) (ip : String) (now : Nat)
       (st : RLState) (store : NLStoreOutcome),
       hpTriggered b.company = false → emailMissing b.email = false →
       isValidEmail (jsTrim (b.email.getD "")) = true →
       (checkRateLimit st ip now).1 = true →
       (!(optTruthy cfg.apiKey) || !(optTruthy cfg.listId)) = true →
       (newsletterMinimalPost prod cfg (some b) ip now st store).resp
         = ⟨500, .successFalse "Server configuration error"⟩) := by
  refine ⟨?_, ?_, ?_, ?_⟩
  · intro o so cfg b? store sl em horigin hcfg
    have h2 : (caMissingVars cfg).isEmpty = false := by
      rcases hl : caMissingVars cfg with _ | ⟨x, xs⟩
      · exact absurd hl hcfg
      · rfl
    simp [communityApplyPost, horigin, h2]
  · intro cfg x hx
    simp only [caMissingVars, List.mem_append] at hx
    rcases hx with (hx | hx) | hx
    · cases h : optTruthy cfg.airtablePat <;> rw [h] at hx <;> simp at hx
      exact Or.inl hx
    · cases h : optTruthy cfg.airtableBaseId <;> rw [h] at hx <;> simp at hx
      exact Or.inr (Or.inl hx)
    · cases h1 : optTruthy cfg.airtableTableId <;>
        cases h2 : optTruthy cfg.airtableTableName <;>
        rw [h1, h2] at hx <;> simp at hx
      exact Or.inr (Or.inr hx)
  · intro cfg b store sl hhp hname hem hval hsize hmiss
    simp [merchPost, hhp, hname, hem, hval, hsize, hmiss]
  · intro prod cfg b ip now st store hhp hem hval hrl hmiss
    simp [newsletterMinimalPost, hhp, hem, hval, hrl, hmiss]

/-- Witness for the amended C8 at concrete inputs. -/
theorem C8_config_enumeration_amended_witness :
    (communityApplyPost none "https://site" ⟨none, some "b", none, none,
        none, none, none, none⟩ none .threw .threw .threw).resp
      = ⟨500, .configError "Server configuration error"
          (caMissingVars ⟨none, some "b", none, none, none, none, none,
            none⟩)⟩ ∧
    ("AIRTABLE_PAT" = "AIRTABLE_PAT" ∨ "AIRTABLE_PAT" = "AIRTABLE_BASE_ID" ∨
      "AIRTABLE_PAT" = "AIRTABLE_TABLE_ID or AIRTABLE_TABLE_NAME") ∧
    (merchPost ⟨some "p", none, some "t", none⟩
        (some ⟨some "Ada", some "a@b.com", some "M", none, none⟩)
        .threw .threw).resp = ⟨500, .successFalse "Server error"⟩ ∧
    (newsletterMinimalPost true ⟨some "k", none⟩ (some ⟨some "a@b.com", none⟩)
        "ip" 7 [] .threw).resp
      = ⟨500, .successFalse "Server configuration error"⟩ :=
  ⟨C8_config_enumeration_amended.1 none "https://site" ⟨none, some "b", none,
      none, none, none, none, none⟩ none .threw .threw .threw (by decide)
      (by decide),
   C8_config_enumeration_amended.2.1 ⟨none, some "b", none, none, none, none,
      none, none⟩ "AIRTABLE_PAT" (by decide),
   C8_config_enumeration_amended.2.2.1 ⟨some "p", none, some "t", none⟩
      ⟨some "Ada", some "a@b.com", some "M", none, none⟩ .threw .threw
      (by decide) (by decide) (by decide) (by decide) (by decide) (by decide),
   C8_config_enumeration_amended.2.2.2 true ⟨some "k", none⟩
      ⟨some "a@b.com", none⟩ "ip" 7 [] .threw (by decide) (by decide)
      (by decide) (by decide) (by decide)⟩

/-- C7: at the community and merch endpoints, whenever the pipeline reaches
the authoritative store write and that write succeeds, the response is the
200 success body; and the handler result does not depend on the side-channel
oracles at all (the Slack and Resend calls sit in try/catch blocks whose
failure paths only log), so any side-channel failure or exception leaves
the success response unchanged. -/
theorem C7_success_despite_side_channel :
    (∀ (o : Option String) (so : String) (cfg : CAConfig) (b? : Option CABody)
       (st : Nat) (sl em : SideOutcome),
       (communityApplyPost o so cfg b? (.resp true st) sl em).effects.storeWrite
           = true →
       (communityApplyPost o so cfg b? (.resp true st) sl em).resp
           = ⟨200, .okTrue⟩) ∧
    (∀ (o : Option String) (so : String) (cfg : CAConfig) (b? : Option CABody)
       (store : StoreOutcome) (sl₁ em₁ sl₂ em₂ : SideOutcome),
       communityApplyPost o so cfg b? store sl₁ em₁
         = communityApplyPost o so cfg b? store sl₂ em₂) ∧
    (∀ (cfg : MerchConfig) (b? : Option MerchBody) (st : Nat)
       (sl : SideOutcome),
       (merchPost cfg b? (.resp true st) sl).effects.storeWrite = true →
       (merchPost cfg b? (.resp true st) sl).resp = ⟨200, .successTrue⟩) ∧
    (∀ (cfg : MerchConfig) (b? : Option MerchBody) (store : StoreOutcome)
       (sl₁ sl₂ : SideOutcome),
       merchPost cfg b? store sl₁ = merchPost cfg b? store sl₂) := by
  refine ⟨?_, ?_, ?_, ?_⟩
  · intro o so cfg b? st sl em h
    rcases b? with _ | body
    · simp only [communityApplyPost] at h
      split_ifs at h <;> simp [noEffects] at h
    · simp only [communityApplyPost] at h ⊢
      split_ifs at h ⊢ <;> simp_all [noEffects]
  · intro o so cfg b? store sl₁ em₁ sl₂ em₂
    rfl
  · intro cfg b? st sl h
    rcases b? with _ | body
    · simp [merchPost, noEffects] at h
    · simp only [merchPost] at h ⊢
      split_ifs at h ⊢ <;> simp_all [noEffects]
  · intro cfg b? store sl₁ sl₂
    rfl

/-- Witness for C7 at concrete inputs: the store write succeeds while every
side-channel oracle throws, and the response is still the success body. -/
theorem C7_success_despite_side_channel_witness :
    (communityApplyPost none "https://site" ⟨some "p", some "b", some "t",
        none, some "hook", some "rk", some "from@x.io", none⟩
        (some ⟨some "Ada", some "a@b", none, none, none, none, none, none,
          none, none⟩) (.resp true 200) .threw .threw).resp = ⟨200, .okTrue⟩ ∧
    communityApplyPost none "https://site" ⟨some "p", some "b", some "t",
        none, some "hook", some "rk", some "from@x.io", none⟩
        (some ⟨some "Ada", some "a@b", none, none, none, none, none, none,
          none, none⟩) (.resp true 200) .threw .threw
      = communityApplyPost none "https://site" ⟨some "p", some "b", some "t",
        none, some "hook", some "rk", some "from@x.io", none⟩
        (some ⟨some "Ada", some "a@b", none, none, none, none, none, none,
          none, none⟩) (.resp true 200) (.resp false) (.resp false) ∧
    (merchPost ⟨some "p", some "b", some "t", some "hook"⟩
        (some ⟨some "Ada", some "a@b.com", some "M", none, none⟩)
        (.resp true 200) .threw).resp = ⟨200, .successTrue⟩ ∧
    merchPost ⟨some "p", some "b", some "t", some "hook"⟩
        (some ⟨some "Ada", some "a@b.com", some "M", none, none⟩)
        (.resp true 200) .threw
      = merchPost ⟨some "p", some "b", some "t", some "hook"⟩
        (some ⟨some "Ada", some "a@b.com", some "M", none, none⟩)
        (.resp true 200) (.resp false) :=
  ⟨C7_success_despite_side_channel.1 none "https://site" ⟨some "p", some "b",
      some "t", none, some "hook", some "rk", some "from@x.io", none⟩
      (some ⟨some "Ada", some "a@b", none, none, none, none, none, none,
        none, none⟩) 200 .threw .threw (by decide),
   C7_success_despite_side_channel.2.1 none "https://site" ⟨some "p", some "b",
      some "t", none, some "hook", some "rk", some "from@x.io", none⟩
      (some ⟨some "Ada", some "a@b", none, none, none, none, none, none,
        none, none⟩) (.resp true 200) .threw .threw (.resp false) (.resp false),
   C7_success_despite_side_channel.2.2.1 ⟨some "p", some "b", some "t",
      some "hook"⟩ (some ⟨some "Ada", some "a@b.com", some "M", none, none⟩)
      200 .threw (by decide),
   C7_success_despite_side_channel.2.2.2 ⟨some "p", some "b", some "t",
      some "hook"⟩ (some ⟨some "Ada", some "a@b.com", some "M", none, none⟩)
      (.resp true 200) .threw (.resp false)⟩

/-- C9: at both newsletter endpoints, when the pipeline reaches the upstream
contact-creation call and the call answers non-success with an error message
containing "already subscribed", "already pending" or "is already on the
list", the request is answered 200 with a success body rather than an
upstream-failure outcome.  (The source lower-cases the message first, so a
message containing one of the phrases verbatim is always matched.) -/
theorem C9_duplicate_subscription_success :
    (∀ (prod : Bool) (cfg : NLConfig) (b? : Option NLBody) (ip : String)
       (now : Nat) (st : RLState) (status : Nat) (msg : String),
       (newsletterMinimalPost prod cfg b? ip now st
           (.resp false status (some msg))).effects.storeWrite = true →
       (chInfixB "already subscribed".toList msg.toList = true ∨
        chInfixB "already pending".toList msg.toList = true ∨
        chInfixB "is already on the list".toList msg.toList = true) →
       (newsletterMinimalPost prod cfg b? ip now st
           (.resp false status (some msg))).resp = ⟨200, .successTrue⟩) ∧
    (∀ (cfg : NLConfig) (b? : Option NLNamedBody) (ip : String)
       (now : Nat) (st : RLState) (status : Nat) (msg : String),
       (newsletterNamedPost cfg b? ip now st
           (.resp false status (some msg))).effects.storeWrite = true →
       (chInfixB "already subscribed".toList msg.toList = true ∨
        chInfixB "already pending".toList msg.toList = true ∨
        chInfixB "is already on the list".toList msg.toList = true) →
       (newsletterNamedPost cfg b? ip now st
           (.resp false status (some msg))).resp = ⟨200, .successTrue⟩) := by
  constructor
  · intro prod cfg b? ip now st status msg h hdup
    have hd : nlDupMessage (some msg) = true := nlDupMessage_of_contains hdup
    rcases b? with _ | body
    · simp [newsletterMinimalPost, noEffects] at h
    · simp only [newsletterMinimalPost] at h ⊢
      split_ifs at h ⊢ <;> simp_all [noEffects]
  · intro cfg b? ip now st status msg h hdup
    have hd : nlDupMessage (some msg) = true := nlDupMessage_of_contains hdup
    rcases b? with _ | body
    · simp [newsletterNamedPost, noEffects] at h
    · simp only [newsletterNamedPost] at h ⊢
      split_ifs at h ⊢ <;> simp_all [noEffects]

/-- Witness for C9 at a concrete input whose upstream error message
contains "already subscribed". -/
theorem C9_duplicate_subscription_success_witness :
    (newsletterMinimalPost true ⟨some "k", some "l"⟩
        (some ⟨some "a@b.com", none⟩) "ip" 0 []
        (.resp false 409 (some "the contact is already subscribed here"))).resp
      = ⟨200, .successTrue⟩ ∧
    (newsletterNamedPost ⟨some "k", some "l"⟩
        (some ⟨some "a@b.com", some "Ada", some "Lovelace", none⟩) "ip" 0 []
        (.resp false 409 (some "the contact is already subscribed here"))).resp
      = ⟨200, .successTrue⟩ :=
  ⟨C9_duplicate_subscription_success.1 true ⟨some "k", some "l"⟩
      (some ⟨some "a@b.com", none⟩) "ip" 0 [] 409
      "the contact is already subscribed here" (by decide)
      (Or.inl (by decide)),
   C9_duplicate_subscription_success.2 ⟨some "k", some "l"⟩
      (some ⟨some "a@b.com", some "Ada", some "Lovelace", none⟩) "ip" 0 [] 409
      "the contact is already subscribed here" (by decide)
      (Or.inl (by decide))⟩
